import Mathlib

/-!
Verification development for the YT_Transcribe repository.

This file gives a shallow embedding of the two subsystems covered by the
specification: the sliding-window topic-segmentation engine of
`yt_transcribe/segment_transcript.py` (class `TopicSegmenter`) and the
resumable pipeline driver of `yt_transcribe/analyze_video.py`
(class `AnalysisState`, `process_youtube_url`, and the batch loop of `main`).

External collaborators are abstracted exactly where the Python code calls
out of the repository: the language-model pipeline is a parameter
`gen : String → Except ε String` (a raised exception becomes `Except.error`),
`json.loads` together with the list-wrapping at line 131 is a parameter
`decode : String → Option (List (Segment τ))` (a `JSONDecodeError` becomes
`none`), and subprocess invocations in `analyze_video.py` are fields of an
`Env` record.  The `while` loop of `identify_topic_segments` is embedded
with explicit fuel: a result of `none` means the loop has not finished
within the given fuel, and `(∀ fuel, result = none)` means the loop never
terminates.
-/

/-- The structured record the model is asked to emit for each window
(fields listed in the prompt at lines 111-120 of `segment_transcript.py`).
Timestamp values are opaque to the algorithm (the Python code only copies
them around), so their type `τ` is a parameter. -/
structure Segment (τ : Type) where
  start_time : τ
  end_time : τ
  topic : String
  subtopics : List String
  key_speakers : List String
  importance : String
  key_points : List String
  continues_previous : Bool
  continues_next : Bool
deriving DecidableEq

/-- Loop body of `TopicSegmenter._consolidate_segments` (lines 147-161):
`cur` is `current_segment`, the remaining candidate list is the argument.
The merge test is `segment.get('continues_previous') and
current_segment.get('continues_next')`; a merge overwrites `end_time` and
extends `subtopics` and `key_points`, leaving every other field of
`current_segment` (in particular its `continues_next` flag) unchanged. -/
def consolidateAux {τ : Type} (cur : Segment τ) : List (Segment τ) → List (Segment τ)
  | [] => [cur]
  | s :: rest =>
    if s.continues_previous && cur.continues_next then
      consolidateAux
        { cur with
          end_time := s.end_time
          subtopics := cur.subtopics ++ s.subtopics
          key_points := cur.key_points ++ s.key_points } rest
    else cur :: consolidateAux s rest

/-- `TopicSegmenter._consolidate_segments` (lines 142-166): `current_segment`
starts as `None` and is set to the first candidate; the trailing
`current_segment` is appended at the end. -/
def consolidate {τ : Type} : List (Segment τ) → List (Segment τ)
  | [] => []
  | s :: rest => consolidateAux s rest

/-- Modelled from the spec claim wording, for comparison with `consolidate`:
the claim reads the merge rule as a relation between *consecutive
candidates* — a candidate is merged into the running segment exactly when
the immediately preceding candidate flagged `continues_next` and the
current one flagged `continues_previous`; otherwise the running segment is
closed.  Here `prev` is always the previous raw candidate, not the running
merged segment. -/
def consolidateClaimedAux {τ : Type} (cur prev : Segment τ) :
    List (Segment τ) → List (Segment τ)
  | [] => [cur]
  | s :: rest =>
    if s.continues_previous && prev.continues_next then
      consolidateClaimedAux
        { cur with
          end_time := s.end_time
          subtopics := cur.subtopics ++ s.subtopics
          key_points := cur.key_points ++ s.key_points } s rest
    else cur :: consolidateClaimedAux s s rest

/-- Modelled from the spec claim wording; see `consolidateClaimedAux`. -/
def consolidateClaimed {τ : Type} : List (Segment τ) → List (Segment τ)
  | [] => []
  | s :: rest => consolidateClaimedAux s s rest

/-- The fixed prompt text built at lines 102-123 of `segment_transcript.py`;
the window text is appended at the end (the `{window_text}` interpolation of
the f-string). -/
def promptText : String :=
  "Analyze this segment of a conversation transcript and identify the major topic or topics being discussed.\nFocus on clear topic transitions and thematic changes.\n\nFor each identified topic segment, provide:\n1. The timestamp range where it appears (if timestamps are present)\n2. A clear, specific topic title\n3. Key speakers or main points discussed\n4. Importance level (High/Medium/Low) based on content significance\n\nFormat as JSON with these fields:\n- start_time: timestamp or \"continuing\"\n- end_time: timestamp or \"continues\"\n- topic: clear title\n- subtopics: list of specific points\n- key_speakers: list of speakers\n- importance: \"High\"/\"Medium\"/\"Low\"\n- key_points: list of main points\n- continues_previous: true/false\n- continues_next: true/false\n\nTranscript segment:\n"

/-- Prompt for one window: fixed text followed by the window text. -/
def mkPrompt (windowChars : List Char) : String :=
  promptText ++ String.mk windowChars

/-- The slice `text[current_pos:window_end]` taken at line 99.  Inside the
loop `current_pos` is always non-negative and at most `window_end`, so the
Python slice is the ordinary drop/take. -/
def windowSlice (text : List Char) (pos wend : Int) : List Char :=
  (text.drop pos.toNat).take (wend - pos).toNat

/-- `TopicSegmenter._generate_response` (lines 51-86): formats the prompt
and invokes the text-generation pipeline; on an exception it logs, clears
memory and re-raises, so the caller observes either the generated text or
the original exception.  The pipeline itself is the abstract collaborator
`gen`. -/
def generateResponse {ε : Type} (gen : String → Except ε String) (prompt : String) :
    Except ε String :=
  gen prompt

/-- Candidate segments contributed by one window `w = (current_pos,
window_end)` in lines 126-133: the generated response is decoded
(`json.loads` plus the list-wrapping of line 131, abstracted as `decode`,
with `none` for `JSONDecodeError`); a decode failure contributes nothing. -/
def windowCandidates {ε τ : Type} (gen : String → Except ε String)
    (decode : String → Option (List (Segment τ))) (text : List Char)
    (w : Int × Int) : List (Segment τ) :=
  match generateResponse gen (mkPrompt (windowSlice text w.1 w.2)) with
  | .ok response => (decode response).getD []
  | .error _ => []

/-- Window-position trace of the `while` loop at lines 96-138: each
iteration with `current_pos < len(text)` records the window
`(current_pos, window_end)` with `window_end = min(current_pos +
window_size, len(text))`, then sets `current_pos = window_end - overlap`
and breaks if that is negative.  Fuel-indexed: `none` means the loop has
not finished within `fuel` iterations. -/
def scanWindows (window_size overlap len : Int) : Nat → Int → Option (List (Int × Int))
  | 0, _ => none
  | fuel + 1, pos =>
    if pos < len then
      let wend := min (pos + window_size) len
      if wend - overlap < 0 then some [(pos, wend)]
      else (scanWindows window_size overlap len fuel (wend - overlap)).map
        (fun ws => (pos, wend) :: ws)
    else some []

/-- The `while` loop of `TopicSegmenter.identify_topic_segments`
(lines 96-138), fuel-indexed, returning the collected candidate list from
position `pos` onwards.  `_generate_response` is called outside any `try`,
so a generation failure propagates out of the loop (`Except.error`); only
the decode step is wrapped in `try/except json.JSONDecodeError` and a
decode failure merely skips the window. -/
def scanLoop {ε τ : Type} (gen : String → Except ε String)
    (decode : String → Option (List (Segment τ)))
    (window_size overlap : Int) (text : List Char) :
    Nat → Int → Option (Except ε (List (Segment τ)))
  | 0, _ => none
  | fuel + 1, pos =>
    if pos < (text.length : Int) then
      let wend := min (pos + window_size) (text.length : Int)
      match generateResponse gen (mkPrompt (windowSlice text pos wend)) with
      | .error e => some (.error e)
      | .ok response =>
        let cands := (decode response).getD []
        if wend - overlap < 0 then some (.ok cands)
        else (scanLoop gen decode window_size overlap text fuel (wend - overlap)).map
          (fun r => r.map (fun rest => cands ++ rest))
    else some (.ok [])

/-- `TopicSegmenter.identify_topic_segments` (lines 88-140): runs the
sliding-window scan from position 0 with the hard-coded `overlap = 1000`
(line 92) and consolidates the collected candidates (line 140).
`window_size` defaults to 5000 in the Python signature. -/
def identify_topic_segments {ε τ : Type} (gen : String → Except ε String)
    (decode : String → Option (List (Segment τ)))
    (window_size : Int) (text : List Char) (fuel : Nat) :
    Option (Except ε (List (Segment τ))) :=
  (scanLoop gen decode window_size 1000 text fuel 0).map
    (fun r => r.map consolidate)

/-- Candidates for the C3 counterexample: three windows where the first
flags `continues_next`, the middle flags `continues_previous` but *not*
`continues_next`, and the last flags `continues_previous`. -/
def c3A : Segment Int := ⟨0, 1, "a", ["sa"], [], "High", ["pa"], false, true⟩

/-- Middle candidate for the C3 counterexample. -/
def c3B : Segment Int := ⟨1, 2, "b", ["sb"], [], "High", ["pb"], true, false⟩

/-- Last candidate for the C3 counterexample. -/
def c3C : Segment Int := ⟨2, 3, "c", ["sc"], [], "High", ["pc"], true, false⟩

/-- A candidate whose reported span overlaps the next candidate's
(C8 counterexample). -/
def c8A : Segment Int := ⟨0, 50, "a", [], [], "High", ["pa"], false, false⟩

/-- Second overlapping candidate (C8 counterexample). -/
def c8B : Segment Int := ⟨10, 60, "b", [], [], "High", ["pb"], false, false⟩

/-- Divergence of a call, in the fuel convention of this file: the loop
has not finished within any amount of fuel, i.e. it never terminates. -/
def identifyNeverReturns {ε τ : Type} (gen : String → Except ε String)
    (decode : String → Option (List (Segment τ)))
    (window_size : Int) (text : List Char) : Prop :=
  ∀ fuel, identify_topic_segments gen decode window_size text fuel = none

/-- A 10000-character transcript with varied characters (so that distinct
windows have distinct texts); with `window_size = 4000` this is the
four-window scenario input of the claim. -/
def c6text : List Char :=
  (List.range 10000).map (fun n => Char.ofNat (97 + n % 26))

/-- A generator that always succeeds, echoing the prompt (so each window
produces a distinct response). -/
def c6gen : String → Except String String :=
  fun prompt => Except.ok prompt

/-- A well-formed candidate for the windows that do parse. -/
def c6seg : Segment Int := ⟨0, 1, "t", [], [], "High", ["pt"], false, false⟩

/-- A decoder for which exactly the second window's response (the window
the code starts at position 3000 with `window_size = 4000`) is
non-parseable, while every other response parses to one candidate. -/
def c6decode : String → Option (List (Segment Int)) :=
  fun response =>
    if response = mkPrompt (windowSlice c6text 3000 7000) then none
    else some [c6seg]

/-- JSON scalar values stored in `analysis_state.json` by
`analyze_video.py`: the state dicts hold booleans (completion flags) and
strings (paths, timestamps, error messages). -/
inductive Val where
  | b : Bool → Val
  | s : String → Val
deriving DecidableEq

/-- Python truthiness of a stored value (used by `video_state.get(...)`
tests at lines 155, 281, 286). -/
def Val.truthy : Val → Bool
  | .b x => x
  | .s x => !(x == "")

/-- The per-video record: a Python dict, modelled as an association list
looked up at the first occurrence of a key. -/
abbrev VideoDict := List (String × Val)

/-- `AnalysisState.state`: a dict from video id to its record. -/
abbrev StateDict := List (String × VideoDict)

/-- Python dict lookup `d.get(k)`: the first binding of `k`, if any. -/
def dictGet {V : Type} : List (String × V) → String → Option V
  | [], _ => none
  | p :: d, k => if p.1 = k then some p.2 else dictGet d k

/-- Python dict assignment `d[k] = v`: replace the binding in place, or
append a new one. -/
def dictSet {V : Type} : List (String × V) → String → V → List (String × V)
  | [], k, v => [(k, v)]
  | p :: d, k, v => if p.1 = k then (k, v) :: d else p :: dictSet d k v

/-- Python `d.update(u)`: assign every binding of `u` into `d` in order. -/
def dictMerge {V : Type} (d : List (String × V)) : List (String × V) → List (String × V)
  | [] => d
  | q :: u => dictMerge (dictSet d q.1 q.2) u

/-- `AnalysisState._load_state` (lines 38-43): the parsed contents of
`analysis_state.json` if the file exists, else a fresh empty dict.  The
file is modelled by its parsed contents (`none` = file absent). -/
def load_state (file : Option StateDict) : StateDict :=
  file.getD []

/-- `AnalysisState.save_state` (lines 45-49): writes the instance's
in-memory dict over the state file; returns the new file contents. -/
def save_state (mem : StateDict) : Option StateDict :=
  some mem

/-- `AnalysisState.update_video_state` (lines 51-56): merge `status` into
the video's current record (`.get(video_id, {})` then `.update`), store it
back, and persist the whole state.  Returns the new in-memory dict and the
new file contents. -/
def update_video_state (mem : StateDict) (vid : String) (status : VideoDict) :
    StateDict × Option StateDict :=
  let current := (dictGet mem vid).getD []
  let current2 := dictMerge current status
  let mem2 := dictSet mem vid current2
  (mem2, save_state mem2)

/-- `AnalysisState.get_video_state` (lines 58-60). -/
def get_video_state (mem : StateDict) (vid : String) : Option VideoDict :=
  dictGet mem vid

/-- Python truthiness of `video_state` itself (`None` and the empty dict
are falsy). -/
def truthyDict (vs : Option VideoDict) : Bool :=
  match vs with
  | none => false
  | some d => !d.isEmpty

/-- Truthiness of `video_state.get(k)` (`None` when the key is absent). -/
def truthyKey (vs : Option VideoDict) (k : String) : Bool :=
  match vs with
  | none => false
  | some d =>
    match dictGet d k with
    | none => false
    | some v => v.truthy

/-- Fuel-driven worker for `splitOnList`: scans left to right, cutting at
each non-overlapping occurrence of the (non-empty) separator, exactly like
Python `str.split(sep)`.  The fuel is at least the text length, and each
step consumes at least one character, so it never runs out. -/
def splitOnFuel (sep : List Char) : Nat → List Char → List Char → List (List Char)
  | _, [], acc => [acc.reverse]
  | 0, xs, acc => [acc.reverse ++ xs]
  | fuel + 1, c :: cs, acc =>
    if sep.isPrefixOf (c :: cs) then
      acc.reverse :: splitOnFuel sep fuel ((c :: cs).drop sep.length) []
    else splitOnFuel sep fuel cs (c :: acc)

/-- Python `str.split(sep)` on character lists (for a non-empty
separator): one chunk more than the number of non-overlapping occurrences
of `sep`, scanned left to right. -/
def splitOnList (sep xs : List Char) : List (List Char) :=
  if sep.isEmpty then [xs] else splitOnFuel sep (xs.length + 1) xs []

/-- `extract_video_id` (lines 121-127): Python `sep in url` is
`len(url.split(sep)) > 1`, and the code then takes `split(sep)[1]` and
splits again on `&` (or `?`) taking chunk 0. -/
def extract_video_id (url : String) : Option String :=
  let parts := splitOnList "watch?v=".data url.data
  if parts.length > 1 then
    some (String.mk ((splitOnList ['&'] (parts.getD 1 [])).getD 0 []))
  else
    let parts2 := splitOnList "youtu.be/".data url.data
    if parts2.length > 1 then
      some (String.mk ((splitOnList ['?'] (parts2.getD 1 [])).getD 0 []))
    else none

/-- The externally observable phase executions of `process_youtube_url`:
the video download (step 1) and the three subprocess invocations
(whisper transcription, summarizer phase 1, summarizer phase 2). -/
inductive Phase where
  | download
  | transcribe
  | phase1
  | phase2
deriving DecidableEq

/-- The environment of `analyze_video.py`: the run timestamp, the
file-system checks, and the external subprocess calls, each returning
success or a raised error message.  `videoExists` is
`check_video_exists(video_id)`, `transcriptionFileExists` tests the stored
transcription path, `transcribe` is the whisper subprocess plus the
transcription-file discovery of lines 169-184 (returning the found path),
and `phase1`/`phase2` are the two `advanced_summarizer.py` invocations. -/
structure Env where
  timestamp : String
  videoExists : String → Bool
  transcriptionFileExists : String → Bool
  transcribe : String → Except String String
  phase1 : String → Except String Unit
  phase2 : String → Except String Unit

/-- The per-run pipeline directory string of line 136 (with the default
`base_dir`). -/
def pipelineDir (vid ts : String) : String :=
  "analysis_pipeline/analysis_" ++ vid ++ "_" ++ ts

/-- Steps 4 and 5 of `process_youtube_url` (lines 193-231): run phase 1 on
the transcription path, record completion, run phase 2 on the pipeline
directory, record completion; a raising subprocess stops the item with its
error and leaves the state persisted so far. -/
def runAnalysisPhases (env : Env) (video_id tpath : String) (mem : StateDict)
    (file : Option StateDict) (executed : List Phase) :
    Option StateDict × List Phase × Option String :=
  match env.phase1 tpath with
  | .error e => (file, executed ++ [Phase.phase1], some e)
  | .ok _ =>
    let ms := update_video_state mem video_id
      [("phase1_complete", Val.b true),
       ("phase1_timestamp", Val.s env.timestamp),
       ("analysis_dir", Val.s (pipelineDir video_id env.timestamp))]
    match env.phase2 (pipelineDir video_id env.timestamp) with
    | .error e => (ms.2, executed ++ [Phase.phase1, Phase.phase2], some e)
    | .ok _ =>
      let ms2 := update_video_state ms.1 video_id
        [("phase2_complete", Val.b true),
         ("phase2_timestamp", Val.s env.timestamp),
         ("analysis_complete", Val.b true)]
      (ms2.2, executed ++ [Phase.phase1, Phase.phase2], none)

/-- `process_youtube_url` (lines 129-241).  The function creates its own
`AnalysisState`, i.e. reads the state file fresh (line 140).  Step 1
downloads unless the video file already exists; step 2 reuses the recorded
transcription when `reprocess` is false, the record says complete, and the
stored path still exists; step 3 otherwise transcribes and persists the
record; steps 4-5 always run the two summarizer phases.  Returns the state
file after the call, the phases executed (attempted), and the raised error
message if any. -/
def process_youtube_url (env : Env) (url : String) (file : Option StateDict)
    (reprocess : Bool) : Option StateDict × List Phase × Option String :=
  match extract_video_id url with
  | none => (file, [], some ("Could not extract video ID from URL: " ++ url))
  | some video_id =>
    let mem := load_state file
    let video_state := get_video_state mem video_id
    let dl : List Phase := if env.videoExists video_id then [] else [Phase.download]
    let tp0 : Except String (Option String) :=
      if !reprocess && truthyDict video_state &&
          truthyKey video_state "transcription_complete" then
        match video_state with
        | some vs =>
          match dictGet vs "transcription_path" with
          | some (Val.s p) =>
            Except.ok (if env.transcriptionFileExists p then some p else none)
          | some (Val.b _) => Except.error "TypeError: transcription_path"
          | none => Except.error "KeyError: transcription_path"
        | none => Except.ok none
      else Except.ok none
    match tp0 with
    | .error e => (file, dl, some e)
    | .ok (some p) => runAnalysisPhases env video_id p mem file dl
    | .ok none =>
      match env.transcribe url with
      | .error e => (file, dl ++ [Phase.transcribe], some e)
      | .ok p =>
        let ms := update_video_state mem video_id
          [("transcription_complete", Val.b true),
           ("transcription_path", Val.s p),
           ("transcription_timestamp", Val.s env.timestamp)]
        runAnalysisPhases env video_id p ms.1 ms.2 (dl ++ [Phase.transcribe])

/-- The state carried by the batch loop of `main` (lines 267-302): the
batch driver's own `AnalysisState` in-memory dict (loaded once, at line
271, before the loop — it does not see the updates the per-item
`process_youtube_url` calls write to the file), the state file contents,
and the accumulated phase executions. -/
structure BatchState where
  mem : StateDict
  file : Option StateDict
  executed : List Phase
deriving DecidableEq

/-- One iteration of the batch loop (lines 273-302): skip when the batch
driver's (possibly stale) record says the item is complete (or failed and
retries are off); otherwise run `process_youtube_url`, catching any raised
error and recording it through the batch driver's own `AnalysisState`
(which saves the driver's stale in-memory dict over the state file). -/
def batch_step (env : Env) (reprocess retry_failed : Bool)
    (bs : BatchState) (url : String) : BatchState :=
  match extract_video_id url with
  | some vid =>
    let vs := get_video_state bs.mem vid
    if !reprocess && truthyDict vs && truthyKey vs "analysis_complete" then bs
    else if !retry_failed && truthyDict vs && truthyKey vs "failed" then bs
    else
      match process_youtube_url env url bs.file reprocess with
      | (file2, ex, none) =>
        { bs with file := file2, executed := bs.executed ++ ex }
      | (_, ex, some e) =>
        let ms := update_video_state bs.mem vid
          [("failed", Val.b true), ("error", Val.s e),
           ("timestamp", Val.s env.timestamp)]
        { mem := ms.1, file := ms.2, executed := bs.executed ++ ex }
  | none =>
    match process_youtube_url env url bs.file reprocess with
    | (file2, ex, _) =>
      { bs with file := file2, executed := bs.executed ++ ex }

/-- The multi-URL path of `main` (lines 266-302): load the batch driver's
`AnalysisState` once, then process the URLs sequentially. -/
def run_batch (env : Env) (reprocess retry_failed : Bool)
    (file : Option StateDict) (urls : List String) : BatchState :=
  urls.foldl (batch_step env reprocess retry_failed) ⟨load_state file, file, []⟩

/-- An environment in which every external call succeeds. -/
def envAllOk : Env where
  timestamp := "T"
  videoExists := fun _ => true
  transcriptionFileExists := fun _ => true
  transcribe := fun _ => Except.ok "p.txt"
  phase1 := fun _ => Except.ok ()
  phase2 := fun _ => Except.ok ()

/-- Environment for the C7 batch scenario: every call succeeds except the
transcription subprocess for the second URL, which raises. -/
def envC7 : Env where
  timestamp := "T"
  videoExists := fun _ => true
  transcriptionFileExists := fun _ => true
  transcribe := fun u =>
    if u = "https://www.youtube.com/watch?v=v2" then Except.error "boom"
    else Except.ok "p.txt"
  phase1 := fun _ => Except.ok ()
  phase2 := fun _ => Except.ok ()

/-- The three URLs of the C7 batch scenario. -/
def c7urls : List String :=
  ["https://www.youtube.com/watch?v=v1",
   "https://www.youtube.com/watch?v=v2",
   "https://www.youtube.com/watch?v=v3"]

/-- A position that the loop maps back to itself is never left: no fuel
suffices from such a position. -/
lemma scanWindows_fix_none (window_size overlap len p : Int)
    (hp : p < len) (h0 : 0 ≤ min (p + window_size) len - overlap)
    (hfix : min (p + window_size) len - overlap = p) :
    ∀ fuel, scanWindows window_size overlap len fuel p = none := by
  intro fuel
  induction fuel with
  | zero => rfl
  | succ fuel ih =>
    unfold scanWindows
    rw [if_pos hp, if_neg (not_lt.mpr h0), hfix, ih]
    rfl

/-- If the loop steps from `q` to a position from which it never
finishes, it never finishes from `q` either. -/
lemma scanWindows_step_none (window_size overlap len q p : Int)
    (hq : q < len) (h0 : 0 ≤ min (q + window_size) len - overlap)
    (hstep : min (q + window_size) len - overlap = p)
    (hnone : ∀ fuel, scanWindows window_size overlap len fuel p = none) :
    ∀ fuel, scanWindows window_size overlap len fuel q = none := by
  intro fuel
  cases fuel with
  | zero => rfl
  | succ fuel =>
    unfold scanWindows
    rw [if_pos hq, if_neg (not_lt.mpr h0), hstep, hnone]
    rfl

/-- C5 (code_bug evidence): scanning a 10000-character transcript with
`window_size = 4000` never terminates, neither with the overlap 800
assumed by the claim nor with the overlap 1000 the code hard-codes.  With
overlap 800 the positions run 0, 3200, 6400, 9600 and then stall at 9200
forever (the last window is truncated to 10000 and `current_pos =
window_end - overlap` stops advancing); the claim expects the scan to stop
after the four windows starting at 0, 3200, 6400, 9600. -/
theorem c5_window_scan_never_terminates :
    (∀ fuel, scanWindows 4000 800 10000 fuel 0 = none) ∧
    (∀ fuel, scanWindows 4000 1000 10000 fuel 0 = none) := by
  constructor
  · have h9200 : ∀ fuel, scanWindows 4000 800 10000 fuel 9200 = none :=
      scanWindows_fix_none 4000 800 10000 9200 (by norm_num) (by norm_num) (by norm_num)
    have h6400 := scanWindows_step_none 4000 800 10000 6400 9200
      (by norm_num) (by norm_num) (by norm_num) h9200
    have h3200 := scanWindows_step_none 4000 800 10000 3200 6400
      (by norm_num) (by norm_num) (by norm_num) h6400
    exact scanWindows_step_none 4000 800 10000 0 3200
      (by norm_num) (by norm_num) (by norm_num) h3200
  · have h9000 : ∀ fuel, scanWindows 4000 1000 10000 fuel 9000 = none :=
      scanWindows_fix_none 4000 1000 10000 9000 (by norm_num) (by norm_num) (by norm_num)
    have h6000 := scanWindows_step_none 4000 1000 10000 6000 9000
      (by norm_num) (by norm_num) (by norm_num) h9000
    have h3000 := scanWindows_step_none 4000 1000 10000 3000 6000
      (by norm_num) (by norm_num) (by norm_num) h6000
    exact scanWindows_step_none 4000 1000 10000 0 3000
      (by norm_num) (by norm_num) (by norm_num) h3000

/-- Analogue of `scanWindows_fix_none` for the full loop: a self-mapping
position from which generation succeeds is never left. -/
lemma scanLoop_fix_none {ε τ : Type} (gen : String → Except ε String)
    (decode : String → Option (List (Segment τ)))
    (window_size overlap : Int) (text : List Char) (p : Int)
    (hp : p < (text.length : Int))
    (h0 : 0 ≤ min (p + window_size) (text.length : Int) - overlap)
    (hfix : min (p + window_size) (text.length : Int) - overlap = p)
    (hok : ∃ r, gen (mkPrompt (windowSlice text p
      (min (p + window_size) (text.length : Int)))) = Except.ok r) :
    ∀ fuel, scanLoop gen decode window_size overlap text fuel p = none := by
  obtain ⟨r, hr⟩ := hok
  intro fuel
  induction fuel with
  | zero => rfl
  | succ fuel ih =>
    unfold scanLoop
    rw [if_pos hp]
    simp only [generateResponse, hr]
    rw [if_neg (not_lt.mpr h0), hfix, ih]
    rfl

/-- Analogue of `scanWindows_step_none` for the full loop: if the loop
steps (with a successful generation) from `q` to a position from which it
never finishes, it never finishes from `q` either. -/
lemma scanLoop_step_none {ε τ : Type} (gen : String → Except ε String)
    (decode : String → Option (List (Segment τ)))
    (window_size overlap : Int) (text : List Char) (q p : Int)
    (hq : q < (text.length : Int))
    (h0 : 0 ≤ min (q + window_size) (text.length : Int) - overlap)
    (hstep : min (q + window_size) (text.length : Int) - overlap = p)
    (hok : ∃ r, gen (mkPrompt (windowSlice text q
      (min (q + window_size) (text.length : Int)))) = Except.ok r)
    (hnone : ∀ fuel, scanLoop gen decode window_size overlap text fuel p = none) :
    ∀ fuel, scanLoop gen decode window_size overlap text fuel q = none := by
  obtain ⟨r, hr⟩ := hok
  intro fuel
  cases fuel with
  | zero => rfl
  | succ fuel =>
    unfold scanLoop
    rw [if_pos hq]
    simp only [generateResponse, hr]
    rw [if_neg (not_lt.mpr h0), hstep, hnone]
    rfl

/-- With the hard-coded overlap 1000, once the first window reaches 1000
characters every later position stays in the zone `[0, len - 1000]`, where
the window end is always at least 1000 and the loop can neither break nor
reach the transcript length: no fuel suffices from such a position. -/
lemma scanWindows_stuck_zone (window_size len : Int)
    (hws : 1000 ≤ window_size) (hlen : 1000 ≤ len) :
    ∀ (fuel : Nat) (p : Int), 0 ≤ p → p ≤ len - 1000 →
      scanWindows window_size 1000 len fuel p = none := by
  intro fuel
  induction fuel with
  | zero => intro p _ _; rfl
  | succ fuel ih =>
    intro p hp0 hple
    have hplt : p < len := by omega
    have hmin1000 : 1000 ≤ min (p + window_size) len := le_min (by omega) hlen
    have hminle : min (p + window_size) len ≤ len := min_le_right _ _
    unfold scanWindows
    rw [if_pos hplt,
      if_neg (by omega : ¬ min (p + window_size) len - 1000 < 0),
      ih (min (p + window_size) len - 1000) (by omega) (by omega)]
    rfl

/-- With the hard-coded overlap 1000, a terminating window scan from
position 0 has at most one window: either the transcript is empty, or the
first window is shorter than 1000 characters and the loop breaks right
after it; any first window of 1000 or more characters puts the position in
the stuck zone of `scanWindows_stuck_zone` forever. -/
lemma scanWindows_terminating_le_one (window_size len : Int) (fuel : Nat)
    (wins : List (Int × Int))
    (h : scanWindows window_size 1000 len fuel 0 = some wins) :
    wins.length ≤ 1 := by
  cases fuel with
  | zero => exact absurd h (by simp [scanWindows])
  | succ fuel =>
    unfold scanWindows at h
    by_cases hp : (0 : Int) < len
    · rw [if_pos hp] at h
      by_cases hbr : min (0 + window_size) len - 1000 < 0
      · rw [if_pos hbr] at h
        obtain rfl : [((0 : Int), min (0 + window_size) len)] = wins :=
          Option.some_inj.mp h
        simp
      · rw [if_neg hbr] at h
        have h1 : (1000 : Int) ≤ min (0 + window_size) len := by omega
        have h2 : min (0 + window_size) len ≤ 0 + window_size := min_le_left _ _
        have h3 : min (0 + window_size) len ≤ len := min_le_right _ _
        have hnone := scanWindows_stuck_zone window_size len (by omega) (by omega)
          fuel (min (0 + window_size) len - 1000) (by omega) (by omega)
        rw [hnone] at h
        exact absurd h (by simp)
    · rw [if_neg hp] at h
      obtain rfl : ([] : List (Int × Int)) = wins := Option.some_inj.mp h
      simp

/-- C1 (code_bug evidence): on a 1000-character transcript, with the
default `window_size = 5000` and any generator that never raises, the
sliding-window scan of `identify_topic_segments` never terminates: the
first window is truncated to the transcript end, `current_pos` is reset to
`window_end - overlap = 0`, and the same full-text window is processed
forever.  No amount of fuel makes the call return. -/
theorem c1_identify_topic_segments_diverges {τ : Type}
    (gen : String → Except String String)
    (decode : String → Option (List (Segment τ)))
    (hok : ∀ prompt, ∃ r, gen prompt = Except.ok r) :
    ∀ fuel, identify_topic_segments gen decode 5000 (List.replicate 1000 'a') fuel = none := by
  have hloop := scanLoop_fix_none gen decode 5000 1000 (List.replicate 1000 'a') 0
    (by rw [List.length_replicate]; norm_num)
    (by rw [List.length_replicate]; norm_num)
    (by rw [List.length_replicate]; norm_num)
    (hok _)
  intro fuel
  rw [identify_topic_segments, hloop]
  rfl

/-- Witness for C1: a concrete never-failing generator and decoder. -/
theorem c1_identify_topic_segments_diverges_witness :
    identify_topic_segments (fun _ => (Except.ok "" : Except String String))
      (fun _ => (none : Option (List (Segment Int)))) 5000
      (List.replicate 1000 'a') 5 = none :=
  c1_identify_topic_segments_diverges (fun _ => Except.ok "") (fun _ => none)
    (fun _ => ⟨"", rfl⟩) 5

/-- C2 counterexample: a Generator failure is not caught by
`identify_topic_segments` — on a 3-character transcript whose single
window's generation call raises, the whole call aborts with that error
instead of treating the window as empty and returning a (consolidated)
result. -/
theorem c2_generator_failure_aborts_counterexample :
    identify_topic_segments (fun _ => (Except.error "boom" : Except String String))
      (fun _ => (none : Option (List (Segment Int)))) 5000
      (List.replicate 3 'a') 1 = some (Except.error "boom") := rfl

/-- C2 amended: `_generate_response` logs and re-raises, and the call at
line 126 is outside any `try`, so a Generator failure at any window the
loop reaches immediately aborts the whole scan with that error; only JSON
decode failures are caught and skipped. -/
theorem c2_amended_generator_failure_propagates {ε τ : Type}
    (gen : String → Except ε String) (decode : String → Option (List (Segment τ)))
    (window_size overlap : Int) (text : List Char) (fuel : Nat) (pos : Int) (e : ε)
    (hpos : pos < (text.length : Int))
    (hgen : gen (mkPrompt (windowSlice text pos
      (min (pos + window_size) (text.length : Int)))) = Except.error e) :
    scanLoop gen decode window_size overlap text (fuel + 1) pos =
      some (Except.error e) := by
  unfold scanLoop
  rw [if_pos hpos]
  simp only [generateResponse, hgen]

/-- Witness for the amended C2 at a concrete window. -/
theorem c2_amended_generator_failure_propagates_witness :
    scanLoop (fun _ => (Except.error "boom" : Except String String))
      (fun _ => (none : Option (List (Segment Int)))) 5000 1000
      (List.replicate 3 'a') 1 0 = some (Except.error "boom") :=
  c2_amended_generator_failure_propagates (fun _ => Except.error "boom")
    (fun _ => none) 5000 1000 (List.replicate 3 'a') 0 0 "boom"
    (by rw [List.length_replicate]; norm_num) rfl

/-- C3 counterexample: the claim reads the merge rule pairwise over
consecutive candidates, so on `[c3A, c3B, c3C]` (where `c3B` declares
`continues_next = false`) it predicts the running segment closes before
`c3C`, giving two output segments; the code merges all three into one,
because the merge test at lines 153-154 consults the running
`current_segment`, whose `continues_next` flag is still `c3A`'s and is
never updated by a merge. -/
theorem c3_pairwise_merge_counterexample :
    (consolidate [c3A, c3B, c3C]).length = 1 ∧
    (consolidateClaimed [c3A, c3B, c3C]).length = 2 := by decide

/-- C3 amended: a later candidate is merged exactly when it flags
`continues_previous` and the *running segment* flags `continues_next`;
the running segment keeps the flags of its first constituent (a merge does
not update them), so for a two-candidate list this is precisely the
earlier candidate's flag.  Merging concatenates `subtopics`/`key_points`
in order with no deduplication and extends `end_time` to the later
candidate's; a non-merging candidate closes the running segment and starts
a new one. -/
theorem c3_amended_merge_rule {τ : Type} (A B cur s : Segment τ)
    (rest : List (Segment τ)) :
    (consolidate [A, B] =
      if B.continues_previous && A.continues_next then
        [{ A with
            end_time := B.end_time
            subtopics := A.subtopics ++ B.subtopics
            key_points := A.key_points ++ B.key_points }]
      else [A, B]) ∧
    (consolidateAux cur (s :: rest) =
      if s.continues_previous && cur.continues_next then
        consolidateAux
          { cur with
            end_time := s.end_time
            subtopics := cur.subtopics ++ s.subtopics
            key_points := cur.key_points ++ s.key_points } rest
      else cur :: consolidateAux s rest) := by
  constructor
  · by_cases h : (B.continues_previous && A.continues_next) = true
    · simp [consolidate, consolidateAux, h]
    · simp [consolidate, consolidateAux, h]
  · by_cases h : (s.continues_previous && cur.continues_next) = true
    · simp [consolidateAux, h]
    · simp [consolidateAux, h]

/-- C9: during consolidation a merge does not update the running segment's
`continues_next` flag, so with candidates `[A, B, C]` where `A` flags
`continues_next`, `B` flags `continues_previous` but not `continues_next`,
and `C` flags `continues_previous`, the merge decision for `C` still uses
`A`'s flag and all three candidates collapse into a single segment. -/
theorem c9_merge_ignores_intermediate_flag {τ : Type} (A B C : Segment τ)
    (hA : A.continues_next = true) (hBp : B.continues_previous = true)
    (_hBn : B.continues_next = false) (hCp : C.continues_previous = true) :
    consolidate [A, B, C] =
      [{ A with
          end_time := C.end_time
          subtopics := (A.subtopics ++ B.subtopics) ++ C.subtopics
          key_points := (A.key_points ++ B.key_points) ++ C.key_points }] := by
  simp [consolidate, consolidateAux, hA, hBp, hCp]

/-- Witness for C9 at concrete candidates. -/
theorem c9_merge_ignores_intermediate_flag_witness :
    consolidate [c3A, c3B, c3C] =
      [{ c3A with
          end_time := c3C.end_time
          subtopics := (c3A.subtopics ++ c3B.subtopics) ++ c3C.subtopics
          key_points := (c3A.key_points ++ c3B.key_points) ++ c3C.key_points }] :=
  c9_merge_ignores_intermediate_flag c3A c3B c3C rfl rfl rfl rfl

/-- When generation succeeds on every window of the (terminating) trace,
the loop collects exactly each window's decoded candidates, in window
order, with decode failures contributing nothing, and returns normally. -/
lemma scanLoop_eq_flatMap {ε τ : Type} (gen : String → Except ε String)
    (decode : String → Option (List (Segment τ)))
    (window_size overlap : Int) (text : List Char) :
    ∀ (fuel : Nat) (pos : Int) (wins : List (Int × Int)),
      scanWindows window_size overlap (text.length : Int) fuel pos = some wins →
      (∀ w ∈ wins, ∃ r, gen (mkPrompt (windowSlice text w.1 w.2)) = Except.ok r) →
      scanLoop gen decode window_size overlap text fuel pos =
        some (Except.ok (wins.flatMap (windowCandidates gen decode text)))
  | 0, pos, wins => by
    intro hw
    exact absurd hw (by simp [scanWindows])
  | fuel + 1, pos, wins => by
    intro hw hok
    unfold scanWindows at hw
    unfold scanLoop
    by_cases hp : pos < (text.length : Int)
    · rw [if_pos hp] at hw ⊢
      by_cases hbr : min (pos + window_size) (text.length : Int) - overlap < 0
      · rw [if_pos hbr] at hw
        have hwins : wins = [(pos, min (pos + window_size) (text.length : Int))] :=
          (Option.some.injEq _ _ ▸ hw).symm
        subst hwins
        obtain ⟨r, hr⟩ :=
          hok (pos, min (pos + window_size) (text.length : Int)) (by simp)
        simp only [generateResponse, hr, if_pos hbr]
        simp [windowCandidates, generateResponse, hr]
      · rw [if_neg hbr] at hw
        obtain ⟨rest, hrest, hcons⟩ := Option.map_eq_some'.mp hw
        subst hcons
        obtain ⟨r, hr⟩ :=
          hok (pos, min (pos + window_size) (text.length : Int)) (by simp)
        have ih := scanLoop_eq_flatMap gen decode window_size overlap text fuel
          (min (pos + window_size) (text.length : Int) - overlap) rest hrest
          (fun w hwmem => hok w (by simp [hwmem]))
        simp only [generateResponse, hr, if_neg hbr, ih]
        simp [windowCandidates, generateResponse, hr, Except.map]
    · rw [if_neg hp] at hw ⊢
      have hwins : wins = [] := (Option.some.injEq _ _ ▸ hw).symm
      subst hwins
      simp

/-- C6 counterexample: the claimed output never exists on a multi-window
input, because the scan never terminates.  On the four-window scenario
input `c6text` (10000 characters, `window_size = 4000`), with the
always-succeeding generator `c6gen` and the decoder `c6decode` for which
exactly the second window's response is non-parseable,
`identify_topic_segments` returns for no amount of fuel: the window
positions run 0, 3000, 6000 and then stall at 9000 forever, so no segment
list containing the other windows' candidates is ever produced. -/
theorem c6_multiwindow_output_never_exists_counterexample :
    identifyNeverReturns c6gen c6decode 4000 c6text := by
  have h9000 := scanLoop_fix_none c6gen c6decode 4000 1000 c6text 9000
    (by norm_num [c6text]) (by norm_num [c6text]) (by norm_num [c6text])
    (by exact ⟨_, rfl⟩)
  have h6000 := scanLoop_step_none c6gen c6decode 4000 1000 c6text 6000 9000
    (by norm_num [c6text]) (by norm_num [c6text]) (by norm_num [c6text])
    (by exact ⟨_, rfl⟩) h9000
  have h3000 := scanLoop_step_none c6gen c6decode 4000 1000 c6text 3000 6000
    (by norm_num [c6text]) (by norm_num [c6text]) (by norm_num [c6text])
    (by exact ⟨_, rfl⟩) h6000
  have h0 := scanLoop_step_none c6gen c6decode 4000 1000 c6text 0 3000
    (by norm_num [c6text]) (by norm_num [c6text]) (by norm_num [c6text])
    (by exact ⟨_, rfl⟩) h3000
  intro fuel
  rw [identify_topic_segments, h0]
  rfl

/-- C6 amended: a decode (parse) failure never aborts the scan, and
whenever the window scan terminates with generation succeeding on every
window, the output is the consolidation of each window's decoded
candidates concatenated in window order — a non-parseable window
contributing the empty list, every other window's candidates appearing
in order.  However, with the hard-coded overlap 1000 a terminating scan
has at most one window (second conjunct), so this output guarantee is
vacuous beyond single-window transcripts: on any multi-window input,
including the window-2-of-4 scenario, the call never returns at all. -/
theorem c6_amended_parse_skip_terminating_scan :
    (∀ (ε τ : Type) (gen : String → Except ε String)
        (decode : String → Option (List (Segment τ)))
        (window_size : Int) (text : List Char) (fuel : Nat)
        (wins : List (Int × Int)),
      scanWindows window_size 1000 (text.length : Int) fuel 0 = some wins →
      (∀ w ∈ wins, ∃ r, gen (mkPrompt (windowSlice text w.1 w.2)) = Except.ok r) →
      identify_topic_segments gen decode window_size text fuel =
        some (Except.ok (consolidate
          (wins.flatMap (windowCandidates gen decode text))))) ∧
    (∀ (window_size len : Int) (fuel : Nat) (wins : List (Int × Int)),
      scanWindows window_size 1000 len fuel 0 = some wins → wins.length ≤ 1) := by
  constructor
  · intro ε τ gen decode window_size text fuel wins hw hok
    rw [identify_topic_segments,
      scanLoop_eq_flatMap gen decode window_size 1000 text fuel 0 wins hw hok]
    rfl
  · exact scanWindows_terminating_le_one

/-- Witness for the amended C6: a single-window transcript whose response
does not parse — the scan is not aborted and yields the empty segment
list — and that terminating trace indeed has one window. -/
theorem c6_amended_parse_skip_terminating_scan_witness :
    identify_topic_segments (fun _ => (Except.ok "not json" : Except String String))
      (fun _ => (none : Option (List (Segment Int)))) 5000
      (List.replicate 500 'a') 1 =
      some (Except.ok (consolidate ([((0 : Int), (500 : Int))].flatMap
        (windowCandidates (fun _ => (Except.ok "not json" : Except String String))
          (fun _ => (none : Option (List (Segment Int)))) (List.replicate 500 'a'))))) ∧
    [((0 : Int), (500 : Int))].length ≤ 1 :=
  ⟨c6_amended_parse_skip_terminating_scan.1 String Int
    (fun _ => Except.ok "not json") (fun _ => none)
    5000 (List.replicate 500 'a') 1 [(0, 500)]
    (by rw [List.length_replicate]; decide) (fun w _ => ⟨"not json", rfl⟩),
   c6_amended_parse_skip_terminating_scan.2 5000
    ((List.replicate 500 'a').length : Int) 1 [(0, 500)]
    (by rw [List.length_replicate]; decide)⟩

/-- C8 counterexample: the engine does not enforce the non-overlap
invariant.  A generator/decoder whose single window yields two candidates
with overlapping spans and no continuation flags makes
`identify_topic_segments` return both candidates unmerged, and the first
segment's end (50) lies strictly after the second segment's start (10). -/
theorem c8_nonoverlap_counterexample :
    identify_topic_segments (fun _ => (Except.ok "" : Except String String))
      (fun _ => some [c8A, c8B]) 5000 (List.replicate 5 'a') 1 =
      some (Except.ok [c8A, c8B]) ∧ c8B.start_time < c8A.end_time :=
  ⟨rfl, by decide⟩

/-- Consolidation preserves span ordering: starting from a running segment
and remaining candidates that are chain-ordered (each candidate ends no
later than the next begins) and individually well-formed (start before
end), the output list is pairwise non-overlapping and every output segment
starts no earlier than the running segment does. -/
lemma consolidateAux_pairwise :
    ∀ (rest : List (Segment Int)) (cur : Segment Int),
      cur.start_time ≤ cur.end_time →
      (∀ s ∈ rest, s.start_time ≤ s.end_time) →
      List.Chain' (fun s t : Segment Int => s.end_time ≤ t.start_time) (cur :: rest) →
      List.Pairwise (fun s t : Segment Int => s.end_time ≤ t.start_time)
          (consolidateAux cur rest) ∧
        ∀ t ∈ consolidateAux cur rest, cur.start_time ≤ t.start_time
  | [], cur => by
    intro hcur _ _
    constructor
    · exact List.pairwise_singleton _ _
    · intro t ht
      simp only [consolidateAux, List.mem_singleton] at ht
      subst ht
      exact le_refl _
  | s :: rest, cur => by
    intro hcur hall hchain
    obtain ⟨hcs, hchain2⟩ := List.chain'_cons.mp hchain
    have hs : s.start_time ≤ s.end_time := hall s (by simp)
    unfold consolidateAux
    by_cases hm : (s.continues_previous && cur.continues_next) = true
    · rw [if_pos hm]
      have hmerged :
          ({ cur with
              end_time := s.end_time
              subtopics := cur.subtopics ++ s.subtopics
              key_points := cur.key_points ++ s.key_points } : Segment Int).start_time ≤
            s.end_time := le_trans hcur (le_trans hcs hs)
      have hchain3 : List.Chain'
          (fun s t : Segment Int => s.end_time ≤ t.start_time)
          (({ cur with
              end_time := s.end_time
              subtopics := cur.subtopics ++ s.subtopics
              key_points := cur.key_points ++ s.key_points } : Segment Int) :: rest) := by
        cases rest with
        | nil => exact List.chain'_singleton _
        | cons r rest2 =>
          obtain ⟨hsr, hchain4⟩ := List.chain'_cons.mp hchain2
          exact List.chain'_cons.mpr ⟨hsr, hchain4⟩
      have ih := consolidateAux_pairwise rest
        { cur with
          end_time := s.end_time
          subtopics := cur.subtopics ++ s.subtopics
          key_points := cur.key_points ++ s.key_points }
        hmerged (fun t ht => hall t (by simp [ht])) hchain3
      exact ih
    · rw [if_neg hm]
      have ih := consolidateAux_pairwise rest s hs
        (fun t ht => hall t (by simp [ht])) hchain2
      constructor
      · refine List.pairwise_cons.mpr ⟨?_, ih.1⟩
        intro t ht
        exact le_trans hcs (ih.2 t ht)
      · intro t ht
        rcases List.mem_cons.mp ht with h | h
        · subst h
          exact le_refl _
        · exact le_trans hcur (le_trans hcs (ih.2 t h))

/-- C8 amended: the engine itself gives no non-overlap guarantee (the
spans come from the model), but consolidation preserves it: if the raw
candidates are chain-ordered (each candidate's end is at most the next
candidate's start) and each candidate starts no later than it ends, then
for every pair `i < j` in the consolidated output, segment `i` ends at or
before segment `j` starts. -/
theorem c8_amended_sorted_candidates_nonoverlap (cands : List (Segment Int))
    (hwf : ∀ s ∈ cands, s.start_time ≤ s.end_time)
    (hchain : List.Chain' (fun s t : Segment Int => s.end_time ≤ t.start_time) cands) :
    List.Pairwise (fun s t : Segment Int => s.end_time ≤ t.start_time)
      (consolidate cands) := by
  cases cands with
  | nil => exact List.Pairwise.nil
  | cons s rest =>
    exact (consolidateAux_pairwise rest s (hwf s (by simp))
      (fun t ht => hwf t (by simp [ht])) hchain).1

/-- Witness for the amended C8 on concrete chain-ordered candidates. -/
theorem c8_amended_sorted_candidates_nonoverlap_witness :
    List.Pairwise (fun s t : Segment Int => s.end_time ≤ t.start_time)
      (consolidate [c3A, c3B, c3C]) :=
  c8_amended_sorted_candidates_nonoverlap [c3A, c3B, c3C]
    (by decide) (by simp [List.chain'_cons, c3A, c3B, c3C])

/-- C4 counterexample: after a first fully successful run on a fresh state
store, the state records the transcription and both analysis phases as
complete, yet a second run with identical input and `reprocess = false`
still executes phase 1 and phase 2 again — not zero phase executions. -/
theorem c4_second_run_reexecutes_counterexample :
    truthyKey (get_video_state (load_state (process_youtube_url envAllOk
        "https://www.youtube.com/watch?v=v1" none false).1) "v1")
      "phase1_complete" = true ∧
    truthyKey (get_video_state (load_state (process_youtube_url envAllOk
        "https://www.youtube.com/watch?v=v1" none false).1) "v1")
      "phase2_complete" = true ∧
    truthyKey (get_video_state (load_state (process_youtube_url envAllOk
        "https://www.youtube.com/watch?v=v1" none false).1) "v1")
      "analysis_complete" = true ∧
    (process_youtube_url envAllOk "https://www.youtube.com/watch?v=v1"
      (process_youtube_url envAllOk "https://www.youtube.com/watch?v=v1" none false).1
      false).2.1 = [Phase.phase1, Phase.phase2] := by
  refine ⟨by decide, by decide, by decide, by decide⟩

/-- C4 amended: on a re-run with identical input and `reprocess = false`,
only the transcription phase is skipped through the recorded state
(`process_youtube_url` re-executes phases 1 and 2 unconditionally); zero
phase executions on a second run holds only for the batch loop, which
skips an item wholesale when its recorded state says `analysis_complete`. -/
theorem c4_amended_resume_behavior (env : Env) (url vid p : String)
    (hid : extract_video_id url = some vid)
    (hvid : env.videoExists vid = true)
    (htr : env.transcribe url = Except.ok p)
    (hfs : env.transcriptionFileExists p = true)
    (hp1 : ∀ x, env.phase1 x = Except.ok ())
    (hp2 : ∀ x, env.phase2 x = Except.ok ()) :
    (process_youtube_url env url none false).2.1 =
      [Phase.transcribe, Phase.phase1, Phase.phase2] ∧
    (process_youtube_url env url (process_youtube_url env url none false).1
      false).2.1 = [Phase.phase1, Phase.phase2] ∧
    (∀ (mem : StateDict) (file : Option StateDict) (ex : List Phase) (vs : VideoDict),
      get_video_state mem vid = some vs →
      truthyKey (some vs) "analysis_complete" = true →
      batch_step env false false ⟨mem, file, ex⟩ url = ⟨mem, file, ex⟩) := by
  refine ⟨?_, ?_, ?_⟩
  · simp [process_youtube_url, hid, load_state, get_video_state, dictGet,
      truthyDict, truthyKey, hvid, htr, runAnalysisPhases, hp1, hp2,
      update_video_state, save_state, dictMerge, dictSet]
  · simp [process_youtube_url, hid, load_state, get_video_state, dictGet,
      truthyDict, truthyKey, hvid, htr, hfs, runAnalysisPhases, hp1, hp2,
      update_video_state, save_state, dictMerge, dictSet, Val.truthy]
  · intro mem file ex vs hvs hcomplete
    have hvs2 : dictGet mem vid = some vs := hvs
    have hne : vs.isEmpty = false := by
      cases vs with
      | nil => simp [truthyKey, dictGet] at hcomplete
      | cons q d => simp
    simp only [batch_step, hid, get_video_state, hvs2]
    simp [truthyDict, hne, hcomplete]

/-- Witness for the amended C4 with a concrete environment, URL and
recorded state. -/
theorem c4_amended_resume_behavior_witness :
    (process_youtube_url envAllOk "https://www.youtube.com/watch?v=v1" none false).2.1 =
      [Phase.transcribe, Phase.phase1, Phase.phase2] ∧
    (process_youtube_url envAllOk "https://www.youtube.com/watch?v=v1"
      (process_youtube_url envAllOk "https://www.youtube.com/watch?v=v1" none false).1
      false).2.1 = [Phase.phase1, Phase.phase2] ∧
    batch_step envAllOk false false
      ⟨[("v1", [("analysis_complete", Val.b true)])], none, []⟩
      "https://www.youtube.com/watch?v=v1" =
      ⟨[("v1", [("analysis_complete", Val.b true)])], none, []⟩ := by
  have h := c4_amended_resume_behavior envAllOk "https://www.youtube.com/watch?v=v1"
    "v1" "p.txt" (by decide) rfl rfl rfl (fun _ => rfl) (fun _ => rfl)
  exact ⟨h.1, h.2.1,
    h.2.2 [("v1", [("analysis_complete", Val.b true)])] none []
      [("analysis_complete", Val.b true)] rfl rfl⟩

/-- C7 (code_bug evidence): in the three-item batch where only item 2's
transcription raises, the final state file records item 2 as failed with
its error message and item 3 as complete — but item 1's record is gone
(`get_video_state` returns `none`), because the batch driver recorded the
failure through its own `AnalysisState` loaded before the loop, whose
stale in-memory dict was then saved over the state file, erasing item 1's
completion written by the first `process_youtube_url` call. -/
theorem c7_batch_failure_clobbers_state :
    get_video_state (load_state (run_batch envC7 false false none c7urls).file) "v1" =
      none ∧
    truthyKey (get_video_state (load_state (run_batch envC7 false false none c7urls).file)
      "v2") "failed" = true ∧
    dictGet ((get_video_state (load_state (run_batch envC7 false false none c7urls).file)
      "v2").getD []) "error" = some (Val.s "boom") ∧
    truthyKey (get_video_state (load_state (run_batch envC7 false false none c7urls).file)
      "v3") "analysis_complete" = true := by
  refine ⟨by decide, by decide, by decide, by decide⟩

/-- Assigning key `k` leaves every other key's binding unchanged. -/
lemma dictGet_dictSet_ne {V : Type} (d : List (String × V)) (k k2 : String) (v : V)
    (h : k2 ≠ k) : dictGet (dictSet d k v) k2 = dictGet d k2 := by
  have h2 : ¬ (k = k2) := fun hk => h hk.symm
  induction d with
  | nil => simp [dictGet, dictSet, h2]
  | cons p d ih =>
    by_cases hp : p.1 = k
    · simp [dictSet, hp, dictGet, h2]
    · by_cases hp2 : p.1 = k2
      · simp [dictSet, hp, dictGet, hp2, h]
      · simp [dictSet, hp, dictGet, hp2, ih]

/-- Assigning key `k` makes it bound to the new value. -/
lemma dictGet_dictSet_self {V : Type} (d : List (String × V)) (k : String) (v : V) :
    dictGet (dictSet d k v) k = some v := by
  induction d with
  | nil => simp [dictGet, dictSet]
  | cons p d ih =>
    by_cases hp : p.1 = k
    · simp [dictSet, hp, dictGet]
    · simp [dictSet, hp, dictGet, ih]

/-- `d.update(u)` leaves every key that does not occur in `u` unchanged. -/
lemma dictGet_dictMerge_notMem {V : Type} (u d : List (String × V)) (k : String)
    (h : ∀ q ∈ u, q.1 ≠ k) : dictGet (dictMerge d u) k = dictGet d k := by
  induction u generalizing d with
  | nil => rfl
  | cons q u ih =>
    rw [dictMerge, ih _ (fun r hr => h r (by simp [hr]))]
    exact dictGet_dictSet_ne d q.1 k q.2 (fun hk => h q (by simp) hk.symm)

/-- C10: `update_video_state` leaves every other video id's record
unchanged, merges rather than replaces the target record (keys absent from
`status` keep their previous values), and persists the entire updated
state to the state file before returning. -/
theorem c10_update_video_state_frame (mem : StateDict) (vid : String)
    (status : VideoDict) :
    (∀ vid2, vid2 ≠ vid →
      dictGet (update_video_state mem vid status).1 vid2 = dictGet mem vid2) ∧
    (∀ k, (∀ q ∈ status, q.1 ≠ k) →
      dictGet ((dictGet (update_video_state mem vid status).1 vid).getD []) k =
        dictGet ((dictGet mem vid).getD []) k) ∧
    (update_video_state mem vid status).2 =
      some (update_video_state mem vid status).1 := by
  refine ⟨?_, ?_, rfl⟩
  · intro vid2 hne
    exact dictGet_dictSet_ne mem vid vid2 _ hne
  · intro k hk
    rw [show (update_video_state mem vid status).1 =
        dictSet mem vid (dictMerge ((dictGet mem vid).getD []) status) from rfl]
    rw [dictGet_dictSet_self]
    exact dictGet_dictMerge_notMem status ((dictGet mem vid).getD []) k hk

/-- Witness for C10 on a concrete state: updating `v1` does not disturb
`v2`, the untouched key `b` of `v1` keeps its value, and the file is the
saved new state. -/
theorem c10_update_video_state_frame_witness :
    dictGet (update_video_state
        [("v1", [("b", Val.s "old")]), ("v2", [("c", Val.b true)])] "v1"
        [("a", Val.b true)]).1 "v2" =
      dictGet [("v1", [("b", Val.s "old")]), ("v2", [("c", Val.b true)])] "v2" ∧
    dictGet ((dictGet (update_video_state
        [("v1", [("b", Val.s "old")]), ("v2", [("c", Val.b true)])] "v1"
        [("a", Val.b true)]).1 "v1").getD []) "b" =
      dictGet ((dictGet [("v1", [("b", Val.s "old")]),
        ("v2", [("c", Val.b true)])] "v1").getD []) "b" ∧
    (update_video_state
        [("v1", [("b", Val.s "old")]), ("v2", [("c", Val.b true)])] "v1"
        [("a", Val.b true)]).2 =
      some (update_video_state
        [("v1", [("b", Val.s "old")]), ("v2", [("c", Val.b true)])] "v1"
        [("a", Val.b true)]).1 := by
  have h := c10_update_video_state_frame
    [("v1", [("b", Val.s "old")]), ("v2", [("c", Val.b true)])] "v1"
    [("a", Val.b true)]
  exact ⟨h.1 "v2" (by decide), h.2.1 "b" (by decide), h.2.2⟩

